import Mathlib

/-!
# Verification of the golden-vcr/dynamo generator service

A shallow embedding of the request-handling pipeline of the `dynamo` worker:
the prompt formatter, image-key formatter, background-removal runner,
generation-API client classification, the SQL query semantics of the
repository layer, and the `handleImageRequest` orchestration, together with
theorems settling the specification's claims about them.

Strings are modelled by Lean `String` (lists of characters); Go byte-level
operations on the ASCII data this service manipulates coincide with the
character-level operations used here.  Fallible calls to external
collaborators are driven by explicit outcome records, and the database is an
explicit in-memory state mirroring the `dynamo` schema.
-/

set_option maxHeartbeats 1600000
set_option maxRecDepth 65536

namespace Dynamo

/-- Embedding of Go `strings.HasPrefix`: `charsBeginWith pre s` is true iff
`pre` is a prefix of `s`, character by character. -/
def charsBeginWith : List Char → List Char → Bool
  | [], _ => true
  | _ :: _, [] => false
  | c :: cs, d :: ds => c = d && charsBeginWith cs ds

/-- `beginsWith s pre` = Go `strings.HasPrefix(s, pre)`. -/
def beginsWith (s pre : String) : Bool := charsBeginWith pre.data s.data

/-- Go slicing `s[n:]` on the ASCII strings handled by the service. -/
def dropChars (n : Nat) (s : String) : String := String.mk (s.data.drop n)

/-- Go `s[0]` read on a string: `none` models the out-of-range panic on an
empty string. -/
def firstCharOf (s : String) : Option Char := s.data.head?

/-! ## internal/processing/producer.go: formatImageKey -/

/-- `formatImageKey` from `internal/processing/producer.go`: storage key
`"{requestId}/{requestId}-0{ext}"`, with the extension derived from the
content type (default `.jpg`). -/
def formatImageKey (imageRequestId : String) (contentType : String) : String :=
  imageRequestId ++ "/" ++ imageRequestId ++ "-0" ++
    (if contentType = "image/png" then ".png"
     else if contentType = "image/webp" then ".webp"
     else ".jpg")

/-! ## internal/filters/runner.go: RemoveBackground and parseColor -/

/-- Lowercase hex digit, the character class `[0-9a-f]` of `regexHexColor`. -/
def isLowerHexDigit (c : Char) : Bool :=
  ('0' ≤ c && c ≤ '9') || ('a' ≤ c && c ≤ 'f')

/-- Word character for Go's regexp `\b` boundary: `[0-9A-Za-z_]`. -/
def isWordChar (c : Char) : Bool :=
  ('0' ≤ c && c ≤ '9') || ('A' ≤ c && c ≤ 'Z') || ('a' ≤ c && c ≤ 'z') || c = '_'

/-- Embedding of `regexHexColor = ^(#[0-9a-f]{6})\b` applied by
`FindStringSubmatch`: without the multiline flag, `^` anchors at the very
start of the text, so a match exists exactly when the text starts with `#`,
six lowercase hex digits, and then either ends or continues with a non-word
character; the captured group is those seven characters. -/
def matchHexColorChars : List Char → Option (List Char)
  | c0 :: c1 :: c2 :: c3 :: c4 :: c5 :: c6 :: rest =>
    if c0 = '#' && isLowerHexDigit c1 && isLowerHexDigit c2 && isLowerHexDigit c3
        && isLowerHexDigit c4 && isLowerHexDigit c5 && isLowerHexDigit c6
        && rest.head?.all (fun d => !isWordChar d) then
      some [c0, c1, c2, c3, c4, c5, c6]
    else none
  | _ => none

/-- `parseColor` from `internal/filters/runner.go`. -/
def parseColor (s : String) : Except String String :=
  match matchHexColorChars s.data with
  | some cs => .ok (String.mk cs)
  | none => .error "not a hex color"

/-- Captured streams and exit status of the `imf remove-background`
subprocess invocation (`c.Run()` succeeds iff the process exits zero). -/
structure SubprocessOutcome where
  exitOk : Bool
  stdoutOutput : String
  stderrOutput : String

/-- Arguments passed to the `imf` binary by `RemoveBackground`. -/
def removeBackgroundArgs (infile outfile : String) : List String :=
  ["remove-background", "-i", infile, "-o", outfile]

/-- `RemoveBackground` from `internal/filters/runner.go`: on a zero exit it
scans captured stderr with `parseColor`; on a non-zero exit it fails with the
command error. -/
def removeBackground (proc : SubprocessOutcome) : Except String String :=
  if proc.exitOk then parseColor proc.stderrOutput
  else .error "remove-background command failed"

theorem matchHexColorChars_take (l cs : List Char)
    (h : matchHexColorChars l = some cs) : cs = l.take 7 ∧ cs.length = 7 := by
  rcases l with _ | ⟨c0, _ | ⟨c1, _ | ⟨c2, _ | ⟨c3, _ | ⟨c4, _ | ⟨c5, _ | ⟨c6, rest⟩⟩⟩⟩⟩⟩⟩ <;>
    simp only [matchHexColorChars] at h
  · exact absurd h (by simp)
  · exact absurd h (by simp)
  · exact absurd h (by simp)
  · exact absurd h (by simp)
  · exact absurd h (by simp)
  · exact absurd h (by simp)
  · exact absurd h (by simp)
  · split at h
    · cases h
      simp [List.take]
    · cases h

/-- Claim C8: for every request id and content-type, `formatImageKey` returns
`"{requestId}/{requestId}-0{ext}"` where ext is `.png` for `image/png`,
`.webp` for `image/webp`, and `.jpg` for `image/jpeg` and for every other
(unknown) content-type. -/
theorem claim_C8_formatImageKey (id ct : String) :
    formatImageKey id "image/png" = id ++ "/" ++ id ++ "-0.png"
    ∧ formatImageKey id "image/webp" = id ++ "/" ++ id ++ "-0.webp"
    ∧ formatImageKey id "image/jpeg" = id ++ "/" ++ id ++ "-0.jpg"
    ∧ (ct ≠ "image/png" → ct ≠ "image/webp" →
        formatImageKey id ct = id ++ "/" ++ id ++ "-0.jpg") := by
  refine ⟨?_, ?_, ?_, fun h1 h2 => ?_⟩
  · rw [formatImageKey, if_pos rfl, String.append_assoc]; rfl
  · rw [formatImageKey, if_neg (by decide), if_pos rfl, String.append_assoc]; rfl
  · rw [formatImageKey, if_neg (by decide), if_neg (by decide), String.append_assoc]; rfl
  · rw [formatImageKey, if_neg h1, if_neg h2, String.append_assoc]; rfl

/-- Witness for C8 at a concrete id and content-type. -/
theorem claim_C8_formatImageKey_witness :
    formatImageKey "abc" "application/pdf" = "abc" ++ "/" ++ "abc" ++ "-0.jpg" :=
  (claim_C8_formatImageKey "abc" "application/pdf").2.2.2
    (by decide) (by decide)

/-- Claim C7: `RemoveBackground` succeeds and returns a color string iff the
subprocess (invoked with arguments `remove-background -i <in> -o <out>`)
exits zero and its captured stderr matches the anchored pattern
`^#[0-9a-f]{6}\b`; the returned value is the matched 7-character color; and
`parseColor "#ffee01\nsomething else\n" = "#ffee01"` while
`parseColor "hello world"` fails. -/
theorem claim_C7_removeBackground (proc : SubprocessOutcome) (infile outfile : String) :
    ((∃ c, removeBackground proc = .ok c) ↔
      (proc.exitOk = true ∧ (matchHexColorChars proc.stderrOutput.data).isSome = true))
    ∧ (∀ c, removeBackground proc = .ok c →
        c.data = proc.stderrOutput.data.take 7 ∧ c.data.length = 7)
    ∧ removeBackgroundArgs infile outfile = ["remove-background", "-i", infile, "-o", outfile]
    ∧ parseColor "#ffee01\nsomething else\n" = .ok "#ffee01"
    ∧ parseColor "hello world" = .error "not a hex color" := by
  refine ⟨⟨fun ⟨c, hc⟩ => ?_, fun ⟨hexit, hsome⟩ => ?_⟩, fun c hc => ?_, rfl, rfl, rfl⟩
  · unfold removeBackground at hc
    split at hc
    · next hOk =>
      refine ⟨hOk, ?_⟩
      unfold parseColor at hc
      rcases hm : matchHexColorChars proc.stderrOutput.data with _ | cs
      · rw [hm] at hc; cases hc
      · simp [hm]
    · cases hc
  · rcases hm : matchHexColorChars proc.stderrOutput.data with _ | cs
    · rw [hm] at hsome; cases hsome
    · exact ⟨String.mk cs, by simp [removeBackground, hexit, parseColor, hm]⟩
  · unfold removeBackground at hc
    split at hc
    · unfold parseColor at hc
      rcases hm : matchHexColorChars proc.stderrOutput.data with _ | cs
      · rw [hm] at hc; cases hc
      · rw [hm] at hc
        cases hc
        exact matchHexColorChars_take _ _ hm
    · cases hc

/-- Witness for C7 at a concrete subprocess outcome. -/
theorem claim_C7_removeBackground_witness :
    removeBackground ⟨true, "", "#abcdef rest"⟩ = .ok "#abcdef" := by
  have h := (claim_C7_removeBackground ⟨true, "", "#abcdef rest"⟩ "i" "o").1.2
    ⟨rfl, by decide⟩
  rcases h with ⟨c, hc⟩
  have := (claim_C7_removeBackground ⟨true, "", "#abcdef rest"⟩ "i" "o").2.1 c hc
  rw [hc]
  congr 1
  apply String.ext
  rw [this.1]
  decide

/-! ## internal/processing/producer.go: prompt formatting -/

/-- Modelled from the spec: the `generation-requests` schema (an external
module) enumerates the style tag values `"ghost"` and `"friend"`. -/
def imageStyleGhost : String := "ghost"

/-- Modelled from the spec: the `"friend"` (clip-art) style tag. -/
def imageStyleFriend : String := "friend"

/-- Inputs for a ghost-style request. -/
structure GhostInputs where
  subject : String
deriving DecidableEq

/-- Inputs for a friend-style request. -/
structure FriendInputs where
  subject : String
  color : String
deriving DecidableEq

/-- The `ImageInputs` record of a request payload. -/
structure ImageInputs where
  ghost : GhostInputs
  friend : FriendInputs
deriving DecidableEq

/-- `formatDescription` from `internal/processing/producer.go`. -/
def formatDescription (style : String) (inputs : ImageInputs) : String :=
  if style = imageStyleGhost then inputs.ghost.subject
  else if style = imageStyleFriend then inputs.friend.subject
  else "an image"

/-- `formatPrompt` from `internal/processing/producer.go`.  The complement of
the color is computed by `Color.GetComplement` from the external schemas
module, abstracted here as the `complement` argument.  The friend branch
reads `color[0]` unguarded inside the `"a "`/`"an "` cases; the result is
`none` exactly when that read would panic (empty color). -/
def formatPrompt (complement : String → String) (style : String) (inputs : ImageInputs) :
    Option String :=
  if style = imageStyleGhost then
    some ("a ghostly image of " ++ inputs.ghost.subject
      ++ ", with glitchy VHS artifacts, dark background")
  else if style = imageStyleFriend then
    let color := inputs.friend.color
    let backgroundColor := complement color
    let articleAndSubject : Option (String × String) :=
      if beginsWith inputs.friend.subject "a " then
        match firstCharOf color with
        | none => none
        | some c =>
          some (if c = 'a' || c = 'e' || c = 'i' || c = 'o' || c = 'u' then "an" else "a",
            dropChars 2 inputs.friend.subject)
      else if beginsWith inputs.friend.subject "an " then
        match firstCharOf color with
        | none => none
        | some c =>
          some (if c = 'a' || c = 'e' || c = 'i' || c = 'o' || c = 'u' then "an" else "a",
            dropChars 3 inputs.friend.subject)
      else if beginsWith inputs.friend.subject "the " then
        some ("", dropChars 4 inputs.friend.subject)
      else
        some ("", inputs.friend.subject)
    match articleAndSubject with
    | none => none
    | some (article, subject) =>
      some (article ++ " " ++ color ++ " " ++ subject
        ++ ", illustrated in the style of 1990s digital clip art images, with a limited 256-color palette and sharp black outlines, with a solid "
        ++ backgroundColor ++ " background suitable for chroma keying")
  else
    some "a sign that says BAD STYLE, UNABLE TO FORMAT PROMPT"

/-- Modelled from the spec: §4.7's stripping of a leading English article -
`"a "`/`"an "` are stripped and a fresh article is required, `"the "` is
stripped with no article emitted, and otherwise the subject is kept with no
article.  Returns (needsNewArticle, strippedSubject). -/
def specStripArticle (subject : String) : Bool × String :=
  if beginsWith subject "a " then (true, dropChars 2 subject)
  else if beginsWith subject "an " then (true, dropChars 3 subject)
  else if beginsWith subject "the " then (false, dropChars 4 subject)
  else (false, subject)

/-- Modelled from the spec: the fresh article is `"an"` when the color's
first letter is a vowel and `"a"` otherwise; the spec leaves the article
undefined when the color is empty (the implementation reads the first byte
unguarded), so that case is `none`. -/
def specChooseArticle (color : String) : Option String :=
  match firstCharOf color with
  | none => none
  | some c => some (if c = 'a' || c = 'e' || c = 'i' || c = 'o' || c = 'u' then "an" else "a")

/-- Modelled from the spec: the friend-style prompt template of §4.7, exactly
as claimed - `"{article} {color} {subject-without-article}, illustrated
..."`, with the leading space collapsed when the article is empty. -/
def specFormatPromptFriend (complement : String → String) (subject color : String) :
    Option String :=
  let stripped := specStripArticle subject
  let article : Option String :=
    if stripped.1 then specChooseArticle color else some ""
  article.map fun a =>
    let body := color ++ " " ++ stripped.2
      ++ ", illustrated in the style of 1990s digital clip art images, with a limited 256-color palette and sharp black outlines, with a solid "
      ++ complement color ++ " background suitable for chroma keying"
    if a = "" then body else a ++ " " ++ body

/-- The friend-style prompt template amended to match the implementation: the
article is always followed by a space, so an empty article leaves a leading
space on the emitted prompt (no collapsing). -/
def specFormatPromptFriendAmended (complement : String → String) (subject color : String) :
    Option String :=
  let stripped := specStripArticle subject
  let article : Option String :=
    if stripped.1 then specChooseArticle color else some ""
  article.map fun a =>
    a ++ " " ++ (color ++ " " ++ stripped.2
      ++ ", illustrated in the style of 1990s digital clip art images, with a limited 256-color palette and sharp black outlines, with a solid "
      ++ complement color ++ " background suitable for chroma keying")

/-- Claim C5 (counterexample): the implementation does not collapse the
leading space when the article is empty.  On subject `"the dog"` with color
`"red"`, `formatPrompt` emits a prompt starting with a space, while the
claimed template collapses it. -/
theorem claim_C5_formatPrompt_counterexample :
    formatPrompt (fun _ => "green") imageStyleFriend ⟨⟨""⟩, ⟨"the dog", "red"⟩⟩
      = some " red dog, illustrated in the style of 1990s digital clip art images, with a limited 256-color palette and sharp black outlines, with a solid green background suitable for chroma keying"
    ∧ specFormatPromptFriend (fun _ => "green") "the dog" "red"
      = some "red dog, illustrated in the style of 1990s digital clip art images, with a limited 256-color palette and sharp black outlines, with a solid green background suitable for chroma keying"
    ∧ formatPrompt (fun _ => "green") imageStyleFriend ⟨⟨""⟩, ⟨"the dog", "red"⟩⟩
      ≠ specFormatPromptFriend (fun _ => "green") "the dog" "red" :=
  ⟨by decide, by decide, by decide⟩

/-- Claim C5 (amended): for every friend-style input, `formatPrompt` strips a
leading `"a "`/`"an "` and chooses `"an"` iff the color's first letter is a
vowel, strips a leading `"the "` emitting no article, and emits the claimed
template, but the leading space is retained (not collapsed) when the article
is empty; the ostrich example holds as claimed. -/
theorem claim_C5_formatPrompt_amended (complement : String → String) (inputs : ImageInputs) :
    formatPrompt complement imageStyleFriend inputs
      = specFormatPromptFriendAmended complement inputs.friend.subject inputs.friend.color
    ∧ formatPrompt complement imageStyleFriend ⟨⟨""⟩, ⟨"an ostrich", "orange"⟩⟩
      = some ("an orange ostrich, illustrated in the style of 1990s digital clip art images, with a limited 256-color palette and sharp black outlines, with a solid "
        ++ complement "orange" ++ " background suitable for chroma keying") := by
  constructor
  · rw [formatPrompt, if_neg (by decide), if_pos rfl,
      specFormatPromptFriendAmended, specStripArticle, specChooseArticle]
    by_cases h1 : beginsWith inputs.friend.subject "a "
    · rcases hc : firstCharOf inputs.friend.color with _ | c <;>
        simp [h1, hc, String.append_assoc]
    · by_cases h2 : beginsWith inputs.friend.subject "an "
      · rcases hc : firstCharOf inputs.friend.color with _ | c <;>
          simp [h1, h2, hc, String.append_assoc]
      · by_cases h3 : beginsWith inputs.friend.subject "the " <;>
          simp [h1, h2, h3, String.append_assoc]
  · rfl

/-- Claim C10: for every friend-style input with a non-empty color string,
`formatPrompt` is total and returns a string; the unguarded read of the
color's first byte is safe exactly because the color is non-empty. -/
theorem claim_C10_formatPrompt_total (complement : String → String) (inputs : ImageInputs)
    (h : inputs.friend.color ≠ "") :
    (formatPrompt complement imageStyleFriend inputs).isSome = true := by
  rcases hcd : inputs.friend.color.data with _ | ⟨c, cs⟩
  · exact absurd (String.ext (hcd.trans rfl)) h
  · rw [formatPrompt, if_neg (by decide), if_pos rfl]
    simp only [firstCharOf, hcd, List.head?]
    by_cases h1 : beginsWith inputs.friend.subject "a " <;>
      by_cases h2 : beginsWith inputs.friend.subject "an " <;>
        by_cases h3 : beginsWith inputs.friend.subject "the " <;>
          simp [h1, h2, h3]

/-- Witness for C10 at a concrete friend input with non-empty color. -/
theorem claim_C10_formatPrompt_total_witness :
    (formatPrompt (fun c => c) imageStyleFriend ⟨⟨""⟩, ⟨"a dog", "red"⟩⟩).isSome = true :=
  claim_C10_formatPrompt_total (fun c => c) ⟨⟨""⟩, ⟨"a dog", "red"⟩⟩ (by decide)

/-! ## internal/generation/client.go: error classification -/

/-- Outcome of a call into the OpenAI SDK: a successful response, an error
that `errors.As` recognizes as an `openai.APIError` (carrying HTTP status,
error type, and user-facing message), or any other error. -/
inductive ApiCallResult (α : Type) where
  | ok (value : α)
  | apiErr (httpStatusCode : Nat) (errType : String) (message : String)
  | otherErr (message : String)
deriving DecidableEq

/-- Error kind returned by the generation client: `rejection` models
`rejectionError` (which unwraps to `ErrRejected` and carries the API's
original user-facing message); `other` models every other error value. -/
inductive GenError where
  | rejection (message : String)
  | other (message : String)
deriving DecidableEq

/-- `Unwrap`-based classification: only a `rejectionError` unwraps to
`ErrRejected`. -/
def GenError.unwrapsToErrRejected : GenError → Bool
  | .rejection _ => true
  | .other _ => false

/-- `rejectionError.Error()`: the `ErrRejected` text followed by the original
API message. -/
def GenError.errorText : GenError → String
  | .rejection m => "image generation request rejected: " ++ m
  | .other m => m

/-- A chat-completion response: the contents of the returned choices. -/
structure ChatCompletionResponse where
  choices : List String
deriving DecidableEq

/-- An image-generation response: the URLs of the returned images. -/
structure ImageGenResponse where
  urls : List String
deriving DecidableEq

/-- A generated image as returned by the client (content type and bytes). -/
structure GeneratedImage where
  contentType : String
  data : List Nat
deriving DecidableEq

/-- `GenerateText` from `internal/generation/client.go`: a 400
`invalid_request_error` API error becomes a rejection preserving the API
message; any other error passes through; a success must have exactly one
choice with non-empty content. -/
def generateText (res : ApiCallResult ChatCompletionResponse) : Except GenError String :=
  match res with
  | .apiErr status errType message =>
    if status = 400 && errType = "invalid_request_error" then
      .error (.rejection message)
    else
      .error (.other message)
  | .otherErr message => .error (.other message)
  | .ok r =>
    match r.choices with
    | [content] =>
      if content = "" then .error (.other "go no text from OpenAI response choice")
      else .ok content
    | _ => .error (.other "expected 1 or more result choices from OpenAI")

/-- Outcome of downloading the OpenAI-hosted PNG: request construction,
transport, HTTP status, `content-type` header, and body read. -/
structure DownloadOutcome where
  newRequestOk : Bool
  doOk : Bool
  statusCode : Nat
  contentType : String
  readOk : Bool
  body : List Nat
deriving DecidableEq

/-- `GenerateImage` from `internal/generation/client.go`: the same 400
`invalid_request_error` classification, then exactly one result image, then
the two-step download which must return HTTP 200 with content-type
`image/png`. -/
def generateImage (res : ApiCallResult ImageGenResponse) (dl : DownloadOutcome) :
    Except GenError GeneratedImage :=
  match res with
  | .apiErr status errType message =>
    if status = 400 && errType = "invalid_request_error" then
      .error (.rejection message)
    else
      .error (.other message)
  | .otherErr message => .error (.other message)
  | .ok r =>
    match r.urls with
    | [_url] =>
      if !dl.newRequestOk then .error (.other "failed to build request for OpenAI-hosted image")
      else if !dl.doOk then .error (.other "request for OpenAI-hosted image failed")
      else if dl.statusCode ≠ 200 then
        .error (.other "got unexpected status from request for OpenAI-hosted image")
      else if dl.contentType ≠ "image/png" then
        .error (.other "got unexpected content-type for OpenAI-hosted image")
      else if !dl.readOk then
        .error (.other "failed to read PNG image data from OpenAI response body")
      else .ok ⟨dl.contentType, dl.body⟩
    | _ => .error (.other "expected 1 result image from OpenAI")

/-- Claim C6: for both `GenerateText` and `GenerateImage`, the returned error
unwraps to `ErrRejected` iff the API call failed with HTTP 400 and type
`invalid_request_error`; in that case the original user-facing message is
preserved; every other failure is a non-rejection error. -/
theorem claim_C6_rejection_classification
    (tres : ApiCallResult ChatCompletionResponse)
    (ires : ApiCallResult ImageGenResponse) (dl : DownloadOutcome) :
    ((∃ m, generateText tres = .error (.rejection m)) ↔
      (∃ m, tres = .apiErr 400 "invalid_request_error" m))
    ∧ (∀ m, tres = .apiErr 400 "invalid_request_error" m →
        generateText tres = .error (.rejection m)
        ∧ (GenError.rejection m).unwrapsToErrRejected = true
        ∧ (GenError.rejection m).errorText = "image generation request rejected: " ++ m)
    ∧ ((∃ m, generateImage ires dl = .error (.rejection m)) ↔
      (∃ m, ires = .apiErr 400 "invalid_request_error" m))
    ∧ (∀ m, ires = .apiErr 400 "invalid_request_error" m →
        generateImage ires dl = .error (.rejection m)) := by
  refine ⟨⟨fun ⟨m, hm⟩ => ?_, fun ⟨m, hm⟩ => ?_⟩, fun m hm => ?_,
    ⟨fun ⟨m, hm⟩ => ?_, fun ⟨m, hm⟩ => ?_⟩, fun m hm => ?_⟩
  · rcases tres with r | ⟨s, t, msg⟩ | msg
    · rcases hch : r.choices with _ | ⟨c, _ | ⟨d, rest⟩⟩ <;>
        simp [generateText, hch] at hm <;> try split at hm <;> simp_all
    · simp only [generateText] at hm
      split at hm
      · next hcond =>
        simp only [Bool.and_eq_true, decide_eq_true_eq] at hcond
        exact ⟨msg, by rw [hcond.1, hcond.2]⟩
      · cases hm
    · simp [generateText] at hm
  · subst hm; simp [generateText]
  · subst hm
    exact ⟨by simp [generateText], rfl, rfl⟩
  · rcases ires with r | ⟨s, t, msg⟩ | msg
    · rcases hch : r.urls with _ | ⟨c, _ | ⟨d, rest⟩⟩ <;>
        simp [generateImage, hch] at hm <;>
        repeat first
          | (split at hm; try simp_all)
          | simp_all
    · simp only [generateImage] at hm
      split at hm
      · next hcond =>
        simp only [Bool.and_eq_true, decide_eq_true_eq] at hcond
        exact ⟨msg, by rw [hcond.1, hcond.2]⟩
      · cases hm
    · simp [generateImage] at hm
  · subst hm; simp [generateImage]
  · subst hm; simp [generateImage]

/-- Witness for C6 at concrete API outcomes. -/
theorem claim_C6_rejection_classification_witness :
    generateText (.apiErr 400 "invalid_request_error" "bad prompt")
      = .error (.rejection "bad prompt")
    ∧ generateImage (.apiErr 400 "invalid_request_error" "no")
        ⟨true, true, 200, "image/png", true, []⟩
      = .error (.rejection "no") :=
  ⟨((claim_C6_rejection_classification (.apiErr 400 "invalid_request_error" "bad prompt")
      (.apiErr 400 "invalid_request_error" "no")
      ⟨true, true, 200, "image/png", true, []⟩).2.1 "bad prompt" rfl).1,
   (claim_C6_rejection_classification (.apiErr 400 "invalid_request_error" "bad prompt")
      (.apiErr 400 "invalid_request_error" "no")
      ⟨true, true, 200, "image/png", true, []⟩).2.2.2 "no" rfl⟩

/-! ## The dynamo database: schema state and query semantics -/

/-- A row of `dynamo.image_request`. -/
structure RequestRow where
  twitchUserId : String
  broadcastId : Option Int
  screeningId : Option String
  style : String
  inputs : String
  prompt : String
  createdAt : Nat
  finishedAt : Option Nat
  errorMessage : Option String
deriving DecidableEq

/-- A row of `dynamo.image`. -/
structure ImageRow where
  imageRequestId : String
  index : Nat
  url : String
  color : String
deriving DecidableEq

/-- A row of `dynamo.answer`. -/
structure AnswerRow where
  imageRequestId : String
  prompt : String
  value : String
deriving DecidableEq

/-- The database state: a logical clock standing in for the database clock's
`now()`, the `image_request` table as an association list keyed by the
primary-key id, and the `image` and `answer` tables. -/
structure Db where
  clock : Nat
  requests : List (String × RequestRow)
  images : List ImageRow
  answers : List AnswerRow
deriving DecidableEq

/-- The empty database. -/
def Db.empty : Db := ⟨0, [], [], []⟩

/-- Whether a request row with the given primary key exists. -/
def Db.hasRequest (db : Db) (id : String) : Bool :=
  db.requests.any (fun kr => kr.1 = id)

/-- `RecordImageRequest` (`:exec`): inserts an in-flight row with
`created_at = now()`; the primary key makes it fail on a duplicate id. -/
def recordImageRequestQuery (db : Db) (id twitchUserId : String)
    (broadcastId : Option Int) (screeningId : Option String)
    (style inputs prompt : String) : Except Unit Db :=
  if db.hasRequest id then .error ()
  else .ok { db with
    clock := db.clock + 1,
    requests := (id, ⟨twitchUserId, broadcastId, screeningId, style, inputs, prompt,
      db.clock, none, none⟩) :: db.requests }

/-- The `where` clause shared by the two mark queries: the row has the given
id and is still in flight (`finished_at is null`). -/
def rowInFlightWithId (id : String) (kr : String × RequestRow) : Bool :=
  decide (kr.1 = id) && decide (kr.2.finishedAt = none)

/-- Effect of `RecordImageRequestFailure` on a matched row: set
`finished_at = now()` and the error message. -/
def setRowFailure (errorMessage : String) (t : Nat) (r : RequestRow) : RequestRow :=
  { r with finishedAt := some t, errorMessage := some errorMessage }

/-- Effect of `RecordImageRequestSuccess` on a matched row: set
`finished_at = now()` only. -/
def setRowSuccess (t : Nat) (r : RequestRow) : RequestRow :=
  { r with finishedAt := some t }

/-- `RecordImageRequestFailure` (`:execresult`): update every row matching
the in-flight predicate; returns the new state and the affected-row count. -/
def recordImageRequestFailureQuery (db : Db) (id errorMessage : String) : Db × Nat :=
  ({ db with
      clock := db.clock + 1,
      requests := db.requests.map fun kr =>
        if rowInFlightWithId id kr then (kr.1, setRowFailure errorMessage db.clock kr.2) else kr },
   db.requests.countP (rowInFlightWithId id))

/-- `RecordImageRequestSuccess` (`:execresult`): update every row matching
the in-flight predicate; returns the new state and the affected-row count. -/
def recordImageRequestSuccessQuery (db : Db) (id : String) : Db × Nat :=
  ({ db with
      clock := db.clock + 1,
      requests := db.requests.map fun kr =>
        if rowInFlightWithId id kr then (kr.1, setRowSuccess db.clock kr.2) else kr },
   db.requests.countP (rowInFlightWithId id))

/-- `RecordImage` (`:exec`): insert, subject to the foreign key on the parent
request and the uniqueness of `(image_request_id, index)`. -/
def recordImageQuery (db : Db) (row : ImageRow) : Except Unit Db :=
  if !db.hasRequest row.imageRequestId then .error ()
  else if db.images.any (fun i =>
      decide (i.imageRequestId = row.imageRequestId) && decide (i.index = row.index)) then
    .error ()
  else .ok { db with images := db.images ++ [row] }

/-- `RecordAnswer` (`:exec`): insert, subject to the foreign key on the
parent request. -/
def recordAnswerQuery (db : Db) (row : AnswerRow) : Except Unit Db :=
  if !db.hasRequest row.imageRequestId then .error ()
  else .ok { db with answers := db.answers ++ [row] }

/-- Number of in-flight rows with the given id. -/
def inflightCount (id : String) (db : Db) : Nat :=
  db.requests.countP (rowInFlightWithId id)

/-- A call against the terminalization queries: `MarkFailure` or
`MarkSuccess`. -/
inductive MarkOp where
  | failure (errorMessage : String)
  | success
deriving DecidableEq

/-- Apply one mark call for the given id. -/
def applyMarkOp (id : String) (db : Db) : MarkOp → Db × Nat
  | .failure m => recordImageRequestFailureQuery db id m
  | .success => recordImageRequestSuccessQuery db id

/-- Run a sequence of mark calls, totalling the affected-row counts. -/
def runMarkOps (id : String) (ops : List MarkOp) (db : Db) : Db × Nat :=
  match ops with
  | [] => (db, 0)
  | op :: rest =>
    let r := applyMarkOp id db op
    let r2 := runMarkOps id rest r.1
    (r2.1, r.2 + r2.2)

theorem countP_after_mark (id : String) (f : RequestRow → RequestRow)
    (hf : ∀ r, (f r).finishedAt ≠ none) (l : List (String × RequestRow)) :
    (l.map fun kr => if rowInFlightWithId id kr then (kr.1, f kr.2) else kr).countP
      (rowInFlightWithId id) = 0 := by
  induction l with
  | nil => rfl
  | cons kr rest ih =>
    by_cases h : rowInFlightWithId id kr
    · have hker : rowInFlightWithId id (kr.1, f kr.2) = false := by
        simp [rowInFlightWithId, hf kr.2]
      simp [h, List.countP_cons, ih, hker]
    · simp [h, List.countP_cons, ih]

theorem inflightCount_applyMarkOp (id : String) (db : Db) (op : MarkOp) :
    (applyMarkOp id db op).2 = inflightCount id db
    ∧ inflightCount id (applyMarkOp id db op).1 = 0 := by
  cases op with
  | failure m =>
    exact ⟨rfl, countP_after_mark id _ (fun r => by simp [setRowFailure]) _⟩
  | success =>
    exact ⟨rfl, countP_after_mark id _ (fun r => by simp [setRowSuccess]) _⟩

theorem runMarkOps_of_inflight_zero (id : String) (ops : List MarkOp) (db : Db)
    (h : inflightCount id db = 0) : (runMarkOps id ops db).2 = 0 := by
  induction ops generalizing db with
  | nil => rfl
  | cons op rest ih =>
    have h1 := inflightCount_applyMarkOp id db op
    simp only [runMarkOps]
    rw [h1.1, h, ih _ h1.2]

theorem runMarkOps_total_le (id : String) (ops : List MarkOp) (db : Db) :
    (runMarkOps id ops db).2 ≤ inflightCount id db := by
  cases ops with
  | nil => exact Nat.zero_le _
  | cons op rest =>
    have h1 := inflightCount_applyMarkOp id db op
    simp only [runMarkOps]
    rw [h1.1, runMarkOps_of_inflight_zero id rest _ h1.2]
    simp

/-- Claim C3: each mark query affects exactly the rows that are in flight
with the given id; an unknown or already-terminal id affects 0 rows and
leaves the table unchanged (not an error - the queries are total); and with
unique primary keys, any sequence of `MarkFailure`/`MarkSuccess` calls for
one id affects at most one row in total. -/
theorem claim_C3_mark_at_most_once (id errorMessage : String) (db : Db)
    (ops : List MarkOp) (hkeys : (db.requests.map Prod.fst).Nodup) :
    (recordImageRequestFailureQuery db id errorMessage).2 = inflightCount id db
    ∧ (recordImageRequestSuccessQuery db id).2 = inflightCount id db
    ∧ (inflightCount id db = 0 →
        (recordImageRequestFailureQuery db id errorMessage).1.requests = db.requests
        ∧ (recordImageRequestSuccessQuery db id).1.requests = db.requests)
    ∧ (runMarkOps id ops db).2 ≤ 1 := by
  refine ⟨rfl, rfl, fun h0 => ?_, ?_⟩
  · have hall : ∀ kr ∈ db.requests, ¬rowInFlightWithId id kr = true :=
      List.countP_eq_zero.1 h0
    have hmap : ∀ (g : String × RequestRow → String × RequestRow),
        (db.requests.map fun kr => if rowInFlightWithId id kr then g kr else kr)
          = db.requests := by
      intro g
      have hcg : (db.requests.map fun kr => if rowInFlightWithId id kr then g kr else kr)
          = db.requests.map (fun kr => kr) := by
        apply List.map_congr_left
        intro kr hkr
        rw [if_neg (hall kr hkr)]
      rw [hcg]
      simp
    exact ⟨hmap _, hmap _⟩
  · refine le_trans (runMarkOps_total_le id ops db) ?_
    have h1 : inflightCount id db ≤ db.requests.countP (fun kr => decide (kr.1 = id)) := by
      apply List.countP_mono_left
      intro kr _ h
      simp only [rowInFlightWithId, Bool.and_eq_true] at h
      exact h.1
    refine le_trans h1 ?_
    have h3 : List.countP (fun kr => decide (kr.1 = id)) db.requests
        = (db.requests.map Prod.fst).countP (fun k => decide (k = id)) := by
      rw [List.countP_map]
      rfl
    rw [h3]
    have key : ∀ (l : List String), l.Nodup → l.countP (fun k => decide (k = id)) ≤ 1 := by
      intro l
      induction l with
      | nil => intro _; simp
      | cons a rest ih =>
        intro hl
        rcases List.nodup_cons.1 hl with ⟨ha, hrest⟩
        rw [List.countP_cons]
        by_cases hai : a = id
        · subst hai
          have hz : rest.countP (fun k => decide (k = a)) = 0 := by
            apply List.countP_eq_zero.2
            intro k hk
            simp only [decide_eq_true_eq]
            intro he
            exact ha (he ▸ hk)
          simp [hz]
        · simp [hai, ih hrest]
    exact key _ hkeys

/-- Witness for C3 at a concrete table and call sequence. -/
theorem claim_C3_mark_at_most_once_witness :
    (runMarkOps "a" [.failure "x", .success, .failure "y"]
      ⟨5, [("a", ⟨"u", none, none, "ghost", "i", "p", 0, none, none⟩),
           ("b", ⟨"v", none, none, "ghost", "i", "p", 0, none, none⟩)], [], []⟩).2 ≤ 1 :=
  (claim_C3_mark_at_most_once "a" "m"
    ⟨5, [("a", ⟨"u", none, none, "ghost", "i", "p", 0, none, none⟩),
         ("b", ⟨"v", none, none, "ghost", "i", "p", 0, none, none⟩)], [], []⟩
    [.failure "x", .success, .failure "y"] (by decide)).2.2.2

/-! ## internal/processing/producer.go: the request handler -/

/-- A viewer descriptor from the inbound envelope. -/
structure Viewer where
  twitchUserId : String
  twitchDisplayName : String
deriving DecidableEq

/-- The state descriptor from the inbound envelope; `broadcastId = 0` and
`screeningId = ""` model the absent values (`0` / `uuid.Nil`). -/
structure ReqState where
  broadcastId : Int
  screeningId : String
deriving DecidableEq

/-- The image payload of an inbound request. -/
structure PayloadImage where
  style : String
  inputs : ImageInputs
deriving DecidableEq

/-- Modelled from the spec: the `generation-requests` schema's request-type
tag for image requests. -/
def requestTypeImage : String := "image"

/-- An inbound request envelope. -/
structure Request where
  type : String
  viewer : Viewer
  state : ReqState
  payloadImage : PayloadImage
deriving DecidableEq

/-- `json.Marshal(payload.Inputs)`: an opaque serialization of the inputs
whose exact text no claim depends on. -/
def marshalInputs (i : ImageInputs) : String :=
  "ghost.subject=" ++ i.ghost.subject ++ ";friend.subject=" ++ i.friend.subject
    ++ ";friend.color=" ++ i.friend.color

/-- Observable actions of one handler invocation, in program order: calls on
the collaborators with their outcomes.  `ledgerFinalizeReject` and
`ledgerFinalizeNoop` are the two behaviors of the deferred
`transaction.Finalize`. -/
inductive TraceEv where
  | authCall (ok : Bool)
  | ledgerReserve (ok : Bool)
  | dbInsertRequest (ok : Bool)
  | dbMarkFailure (ok : Bool) (affected : Nat)
  | dbMarkSuccess (ok : Bool) (affected : Nat)
  | dbInsertImage (ok : Bool)
  | dbInsertAnswer (ok : Bool)
  | genTextCall (ok : Bool)
  | genImageCall (ok : Bool)
  | removeBackgroundCall (ok : Bool)
  | uploadCall (ok : Bool)
  | publishEvent (ok : Bool)
  | ledgerAccept (ok : Bool)
  | ledgerFinalizeReject
  | ledgerFinalizeNoop
deriving DecidableEq

/-- The error value returned by the handler (`nil` is modelled by `none`). -/
inductive HandlerErr where
  | authFailed
  | reserveFailed
  | dbFailure (context : String)
  | generation (e : GenError)
  | tempFile
  | filterFailed (message : String)
  | readWebpFailed
  | pngDecodeFailed
  | jpegEncodeFailed
  | uploadFailed
  | publishFailed
  | acceptFailed
  | crashed
deriving DecidableEq

/-- Outcomes of the fallible steps of one handler invocation, fixed up front:
they drive the control flow of the embedded handler exactly as the
corresponding call results drive the Go code.  Database calls can fail in
transport (`...CallFails`) independently of their constraint checks;
`freshId` is the value of `uuid.New()`. -/
structure HandlerEnv where
  authOk : Bool
  reserveOk : Bool
  freshId : String
  insertCallFails : Bool
  textApiResult : ApiCallResult ChatCompletionResponse
  answerCallFails : Bool
  imageApiResult : ApiCallResult ImageGenResponse
  download : DownloadOutcome
  tempWriteOk : Bool
  removeBgProc : SubprocessOutcome
  readWebpOk : Bool
  webpData : List Nat
  pngDecodeOk : Bool
  jpegEncodeOk : Bool
  jpegData : List Nat
  uploadOk : Bool
  uploadedUrlBase : String
  imageInsertCallFails : Bool
  markSuccessCallFails : Bool
  markFailureCallFails : Bool
  publishOk : Bool
  acceptOk : Bool

/-- The local `recordFailure` closure: a best-effort
`RecordImageRequestFailure` for the handler's request id whose database error
and affected-row count are both discarded by the caller.  Returns the new
state and the observed call outcome. -/
def recordFailureStep (env : HandlerEnv) (db : Db) (message : String) : Db × Bool × Nat :=
  if env.markFailureCallFails then (db, false, 0)
  else ((recordImageRequestFailureQuery db env.freshId message).1, true,
    (recordImageRequestFailureQuery db env.freshId message).2)

/-- Result of an intermediate handler stage: `stop` is an early `return err`
(after any `recordFailure`), `go` continues with a value. -/
inductive Step (α : Type) where
  | stop (db : Db) (trace : List TraceEv) (err : HandlerErr)
  | go (db : Db) (trace : List TraceEv) (value : α)

/-- The friend-name stage: for friend-style requests, `GenerateText` with the
friend-name prompt and `RecordAnswer`; other styles skip it with an empty
generated text. -/
def stepTextGeneration (env : HandlerEnv) (payload : PayloadImage) (db : Db) : Step String :=
  if payload.style = imageStyleFriend then
    match generateText env.textApiResult with
    | .error e =>
      .stop (recordFailureStep env db ("error in text generation: " ++ e.errorText)).1
        [.genTextCall false,
         .dbMarkFailure (recordFailureStep env db ("error in text generation: " ++ e.errorText)).2.1
           (recordFailureStep env db ("error in text generation: " ++ e.errorText)).2.2]
        (.generation e)
    | .ok friendName =>
      match (if env.answerCallFails then .error ()
          else recordAnswerQuery db ⟨env.freshId,
            "Please come up with a name for a friendly mascot character who is "
              ++ payload.inputs.friend.subject
              ++ ". Please answer with a single name, and no additional text.",
            friendName⟩ : Except Unit Db) with
      | .error _ =>
        .stop (recordFailureStep env db "db error in RecordAnswer").1
          [.genTextCall true, .dbInsertAnswer false,
           .dbMarkFailure (recordFailureStep env db "db error in RecordAnswer").2.1
             (recordFailureStep env db "db error in RecordAnswer").2.2]
          (.dbFailure "RecordAnswer")
      | .ok db1 => .go db1 [.genTextCall true, .dbInsertAnswer true] friendName
  else .go db [] ""

/-- The image-generation stage: `GenerateImage` with the formatted prompt. -/
def stepImageGeneration (env : HandlerEnv) (db : Db) : Step GeneratedImage :=
  match generateImage env.imageApiResult env.download with
  | .error e =>
    .stop (recordFailureStep env db e.errorText).1
      [.genImageCall false,
       .dbMarkFailure (recordFailureStep env db e.errorText).2.1
         (recordFailureStep env db e.errorText).2.2]
      (.generation e)
  | .ok image => .go db [.genImageCall true] image

/-- The post-processing stage: for friend images, temp-file round trip
through `RemoveBackground` producing a WEBP and the detected background
color; otherwise an in-memory PNG→JPEG re-encode with the default background
color `#000000`. -/
def stepPostProcess (env : HandlerEnv) (payload : PayloadImage) (db : Db) :
    Step (GeneratedImage × String) :=
  if payload.style = imageStyleFriend then
    if !env.tempWriteOk then
      .stop (recordFailureStep env db "temp file error").1
        [.dbMarkFailure (recordFailureStep env db "temp file error").2.1
          (recordFailureStep env db "temp file error").2.2]
        .tempFile
    else
      match removeBackground env.removeBgProc with
      | .error message =>
        .stop (recordFailureStep env db message).1
          [.removeBackgroundCall false,
           .dbMarkFailure (recordFailureStep env db message).2.1
             (recordFailureStep env db message).2.2]
          (.filterFailed message)
      | .ok color =>
        if !env.readWebpOk then
          .stop (recordFailureStep env db "error reading WEBP file").1
            [.removeBackgroundCall true,
             .dbMarkFailure (recordFailureStep env db "error reading WEBP file").2.1
               (recordFailureStep env db "error reading WEBP file").2.2]
            .readWebpFailed
        else
          .go db [.removeBackgroundCall true] (⟨"image/webp", env.webpData⟩, color)
  else
    if !env.pngDecodeOk then
      .stop (recordFailureStep env db "failed to decode PNG data for OpenAI-hosted image").1
        [.dbMarkFailure
          (recordFailureStep env db "failed to decode PNG data for OpenAI-hosted image").2.1
          (recordFailureStep env db "failed to decode PNG data for OpenAI-hosted image").2.2]
        .pngDecodeFailed
    else if !env.jpegEncodeOk then
      .stop (recordFailureStep env db "failed to encode JPEG image from decoded PNG image").1
        [.dbMarkFailure
          (recordFailureStep env db "failed to encode JPEG image from decoded PNG image").2.1
          (recordFailureStep env db "failed to encode JPEG image from decoded PNG image").2.2]
        .jpegEncodeFailed
    else
      .go db [] (⟨"image/jpeg", env.jpegData⟩, "#000000")

/-- `storeImage`: upload under `formatImageKey`, then `RecordImage` with
index 0 and the background color; each failure is wrapped and routed through
`recordFailure` by the caller's error path. -/
def stepStoreImage (env : HandlerEnv) (image : GeneratedImage) (color : String) (db : Db) :
    Step String :=
  if !env.uploadOk then
    .stop (recordFailureStep env db "failed to upload generated image to storage").1
      [.uploadCall false,
       .dbMarkFailure (recordFailureStep env db "failed to upload generated image to storage").2.1
         (recordFailureStep env db "failed to upload generated image to storage").2.2]
      .uploadFailed
  else
    match (if env.imageInsertCallFails then .error ()
        else recordImageQuery db ⟨env.freshId, 0,
          env.uploadedUrlBase ++ "/" ++ formatImageKey env.freshId image.contentType, color⟩
        : Except Unit Db) with
    | .error _ =>
      .stop (recordFailureStep env db "failed to record newly-stored image URL in database").1
        [.uploadCall true, .dbInsertImage false,
         .dbMarkFailure
           (recordFailureStep env db "failed to record newly-stored image URL in database").2.1
           (recordFailureStep env db "failed to record newly-stored image URL in database").2.2]
        (.dbFailure "RecordImage")
    | .ok db1 =>
      .go db1 [.uploadCall true, .dbInsertImage true]
        (env.uploadedUrlBase ++ "/" ++ formatImageKey env.freshId image.contentType)

/-- Combined result of one handler invocation: final database state, ordered
trace of collaborator actions, returned error (`none` = success), and
whether `transaction.Accept` succeeded. -/
structure BodyOutcome where
  db : Db
  trace : List TraceEv
  error : Option HandlerErr
  accepted : Bool

/-- The request-row insertion of step 4: nullable broadcast/screening ids,
then `RecordImageRequest` with the database-assigned creation timestamp. -/
def stepInsertRequest (env : HandlerEnv) (viewer : Viewer) (state : ReqState)
    (payload : PayloadImage) (prompt : String) (db : Db) : Step Unit :=
  match (if env.insertCallFails then .error ()
      else recordImageRequestQuery db env.freshId viewer.twitchUserId
        (if state.broadcastId ≠ 0 then some state.broadcastId else none)
        (if state.screeningId ≠ "" then some state.screeningId else none)
        payload.style (marshalInputs payload.inputs) prompt : Except Unit Db) with
  | .error _ => .stop db [.dbInsertRequest false] (.dbFailure "RecordImageRequest")
  | .ok db1 => .go db1 [.dbInsertRequest true] ()

/-- The tail of the handler once all assets exist: `RecordImageRequestSuccess`
(whose affected-row count is ignored), event publication (failure routed
through `recordFailure`), and `transaction.Accept`. -/
def stepFinish (env : HandlerEnv) (db5 : Db) : BodyOutcome :=
  if env.markSuccessCallFails then
    ⟨db5, [.dbMarkSuccess false 0], some (.dbFailure "RecordImageRequestSuccess"), false⟩
  else if !env.publishOk then
    ⟨(recordFailureStep env (recordImageRequestSuccessQuery db5 env.freshId).1
        "failed to produce to onscreen-events").1,
     [.dbMarkSuccess true (recordImageRequestSuccessQuery db5 env.freshId).2,
      .publishEvent false,
      .dbMarkFailure
        (recordFailureStep env (recordImageRequestSuccessQuery db5 env.freshId).1
          "failed to produce to onscreen-events").2.1
        (recordFailureStep env (recordImageRequestSuccessQuery db5 env.freshId).1
          "failed to produce to onscreen-events").2.2],
     some .publishFailed, false⟩
  else if !env.acceptOk then
    ⟨(recordImageRequestSuccessQuery db5 env.freshId).1,
     [.dbMarkSuccess true (recordImageRequestSuccessQuery db5 env.freshId).2,
      .publishEvent true, .ledgerAccept false],
     some .acceptFailed, false⟩
  else
    ⟨(recordImageRequestSuccessQuery db5 env.freshId).1,
     [.dbMarkSuccess true (recordImageRequestSuccessQuery db5 env.freshId).2,
      .publishEvent true, .ledgerAccept true],
     none, true⟩

/-- The body of `handleImageRequest` after the ledger reservation: request
insertion, the optional friend-name stage, image generation, post-processing,
storage, then the finishing stage.  A `none` from `formatPrompt` models the
panic on an empty friend color (the deferred finalize still runs). -/
def handlerBody (env : HandlerEnv) (viewer : Viewer) (state : ReqState)
    (payload : PayloadImage) (complement : String → String) (db : Db) : BodyOutcome :=
  match formatPrompt complement payload.style payload.inputs with
  | none => ⟨db, [], some .crashed, false⟩
  | some prompt =>
    match stepInsertRequest env viewer state payload prompt db with
    | .stop d tr e => ⟨d, tr, some e, false⟩
    | .go db1 trI _ =>
      match stepTextGeneration env payload db1 with
      | .stop db2 tr e => ⟨db2, trI ++ tr, some e, false⟩
      | .go db2 tr1 _generatedText =>
        match stepImageGeneration env db2 with
        | .stop db3 tr e => ⟨db3, trI ++ tr1 ++ tr, some e, false⟩
        | .go db3 tr2 _image =>
          match stepPostProcess env payload db3 with
          | .stop db4 tr e => ⟨db4, trI ++ tr1 ++ tr2 ++ tr, some e, false⟩
          | .go db4 tr3 imageAndColor =>
            match stepStoreImage env imageAndColor.1 imageAndColor.2 db4 with
            | .stop db5 tr e => ⟨db5, trI ++ tr1 ++ tr2 ++ tr3 ++ tr, some e, false⟩
            | .go db5 tr4 _imageUrl =>
              ⟨(stepFinish env db5).db,
               trI ++ tr1 ++ tr2 ++ tr3 ++ tr4 ++ (stepFinish env db5).trace,
               (stepFinish env db5).error, (stepFinish env db5).accepted⟩

/-- Modelled from the spec: §4.4 - `Transaction.Finalize` is idempotent: a
no-op if `Accept` has been called (successfully), otherwise it rejects and
refunds the pending debit.  The deferred finalize that runs on every exit
path after the reservation therefore observes a reject exactly when the
accept did not succeed. -/
def finalizeEvent (accepted : Bool) : TraceEv :=
  if accepted then .ledgerFinalizeNoop else .ledgerFinalizeReject

/-- `handleImageRequest` from `internal/processing/producer.go`: auth token,
ledger reservation, registration of the deferred finalize, then the body. -/
def handleImageRequest (env : HandlerEnv) (viewer : Viewer) (state : ReqState)
    (payload : PayloadImage) (complement : String → String) (db : Db) : BodyOutcome :=
  if !env.authOk then ⟨db, [.authCall false], some .authFailed, false⟩
  else if !env.reserveOk then ⟨db, [.authCall true, .ledgerReserve false], some .reserveFailed, false⟩
  else
    let body := handlerBody env viewer state payload complement db
    ⟨body.db,
     .authCall true :: .ledgerReserve true :: (body.trace ++ [finalizeEvent body.accepted]),
     body.error, body.accepted⟩

/-- `Handle` from `internal/processing/producer.go`: dispatch on the request
type; anything but `image` is a silent no-op success. -/
def Handle (env : HandlerEnv) (r : Request) (complement : String → String) (db : Db) :
    BodyOutcome :=
  if r.type = requestTypeImage then
    handleImageRequest env r.viewer r.state r.payloadImage complement db
  else ⟨db, [], none, false⟩

/-- A fully-successful outcome environment, used to instantiate theorems at
concrete inputs. -/
def envAllOk : HandlerEnv where
  authOk := true
  reserveOk := true
  freshId := "r1"
  insertCallFails := false
  textApiResult := .ok ⟨["Bob"]⟩
  answerCallFails := false
  imageApiResult := .ok ⟨["https://oai/img.png"]⟩
  download := ⟨true, true, 200, "image/png", true, [1, 2]⟩
  tempWriteOk := true
  removeBgProc := ⟨true, "", "#abcdef detected"⟩
  readWebpOk := true
  webpData := [3]
  pngDecodeOk := true
  jpegEncodeOk := true
  jpegData := [4]
  uploadOk := true
  uploadedUrlBase := "https://bucket.endpoint"
  imageInsertCallFails := false
  markSuccessCallFails := false
  markFailureCallFails := false
  publishOk := true
  acceptOk := true

/-- Claim C9: an inbound request whose type tag is not `"image"` returns
success and performs no operation on any collaborator: the database is
untouched, the trace is empty (no auth token, no reservation, no generation
call, no event), and the result is a no-op success. -/
theorem claim_C9_unknown_type_noop (env : HandlerEnv) (r : Request)
    (complement : String → String) (db : Db) (h : r.type ≠ requestTypeImage) :
    Handle env r complement db = ⟨db, [], none, false⟩ := by
  simp [Handle, h]

/-- Witness for C9 at a concrete non-image request. -/
theorem claim_C9_unknown_type_noop_witness :
    Handle envAllOk ⟨"chat", ⟨"1005", "U"⟩, ⟨0, ""⟩, ⟨"ghost", ⟨⟨"s"⟩, ⟨"s", "red"⟩⟩⟩⟩
      (fun c => c) Db.empty = ⟨Db.empty, [], none, false⟩ :=
  claim_C9_unknown_type_noop envAllOk _ (fun c => c) Db.empty (by decide)

/-- Claim C4: when the same message is handled a second time (its request id
already has a row), the request-row insert at step 4 fails, the handler
returns that error, the deferred finalize rejects (refunds), and no
duplicate side effects occur: the database is unchanged and no event is
published. -/
theorem claim_C4_duplicate_delivery (env : HandlerEnv) (viewer : Viewer) (state : ReqState)
    (payload : PayloadImage) (complement : String → String) (db : Db)
    (hauth : env.authOk = true) (hres : env.reserveOk = true)
    (hdup : db.hasRequest env.freshId = true)
    (hprompt : (formatPrompt complement payload.style payload.inputs).isSome = true) :
    (handleImageRequest env viewer state payload complement db).db = db
    ∧ (handleImageRequest env viewer state payload complement db).error
        = some (HandlerErr.dbFailure "RecordImageRequest")
    ∧ (handleImageRequest env viewer state payload complement db).trace
        = [.authCall true, .ledgerReserve true, .dbInsertRequest false, .ledgerFinalizeReject]
    ∧ TraceEv.ledgerFinalizeReject ∈ (handleImageRequest env viewer state payload complement db).trace
    ∧ TraceEv.publishEvent true ∉ (handleImageRequest env viewer state payload complement db).trace
    ∧ ∀ b, TraceEv.ledgerAccept b ∉ (handleImageRequest env viewer state payload complement db).trace := by
  obtain ⟨p, hp⟩ := Option.isSome_iff_exists.1 hprompt
  have hbody : handlerBody env viewer state payload complement db
      = ⟨db, [.dbInsertRequest false], some (.dbFailure "RecordImageRequest"), false⟩ := by
    by_cases hic : env.insertCallFails <;>
      simp [handlerBody, hp, hic, stepInsertRequest, recordImageRequestQuery, hdup]
  have hres2 : handleImageRequest env viewer state payload complement db
      = ⟨db, [.authCall true, .ledgerReserve true, .dbInsertRequest false, .ledgerFinalizeReject],
         some (.dbFailure "RecordImageRequest"), false⟩ := by
    simp [handleImageRequest, hauth, hres, hbody, finalizeEvent]
  rw [hres2]
  refine ⟨rfl, rfl, rfl, by simp, by simp, fun b => by simp⟩

/-- Witness for C4: a second delivery against a database already holding the
request row. -/
theorem claim_C4_duplicate_delivery_witness :
    (handleImageRequest envAllOk ⟨"1005", "U"⟩ ⟨0, ""⟩ ⟨"ghost", ⟨⟨"s"⟩, ⟨"s", "red"⟩⟩⟩
        (fun c => c)
        ⟨1, [("r1", ⟨"1005", none, none, "ghost", "i", "p", 0, none, none⟩)], [], []⟩).db
      = ⟨1, [("r1", ⟨"1005", none, none, "ghost", "i", "p", 0, none, none⟩)], [], []⟩
    ∧ (handleImageRequest envAllOk ⟨"1005", "U"⟩ ⟨0, ""⟩ ⟨"ghost", ⟨⟨"s"⟩, ⟨"s", "red"⟩⟩⟩
        (fun c => c)
        ⟨1, [("r1", ⟨"1005", none, none, "ghost", "i", "p", 0, none, none⟩)], [], []⟩).error
      = some (HandlerErr.dbFailure "RecordImageRequest") := by
  have h := claim_C4_duplicate_delivery envAllOk ⟨"1005", "U"⟩ ⟨0, ""⟩
    ⟨"ghost", ⟨⟨"s"⟩, ⟨"s", "red"⟩⟩⟩ (fun c => c)
    ⟨1, [("r1", ⟨"1005", none, none, "ghost", "i", "p", 0, none, none⟩)], [], []⟩
    rfl rfl (by decide) (by decide)
  exact ⟨h.1, h.2.1⟩

/-! ## Ledger discipline of one handler invocation (claim C1) -/

/-- The two terminal ledger actions: a successful `Accept` (commit) and a
finalize that rejects (refund). -/
def isTerminalLedger (ev : TraceEv) : Bool :=
  decide (ev = TraceEv.ledgerFinalizeReject) || decide (ev = TraceEv.ledgerAccept true)

/-- A trace fragment with no terminal ledger action and no `Accept` call. -/
def quietTrace (tr : List TraceEv) : Prop :=
  tr.countP isTerminalLedger = 0 ∧ ∀ b, TraceEv.ledgerAccept b ∉ tr

theorem quietTrace_nil : quietTrace [] := ⟨rfl, by simp⟩

theorem quietTrace_cons (ev : TraceEv) (tr : List TraceEv) (h : quietTrace tr)
    (hev : isTerminalLedger ev = false) (hacc : ∀ b, ev ≠ TraceEv.ledgerAccept b) :
    quietTrace (ev :: tr) := by
  refine ⟨?_, fun b hb => ?_⟩
  · rw [List.countP_cons, h.1, hev]
    rfl
  · rcases List.mem_cons.1 hb with hb | hb
    · exact hacc b hb.symm
    · exact h.2 b hb

theorem quietTrace_append (tr1 tr2 : List TraceEv) (h1 : quietTrace tr1)
    (h2 : quietTrace tr2) : quietTrace (tr1 ++ tr2) := by
  refine ⟨?_, fun b hb => ?_⟩
  · rw [List.countP_append, h1.1, h2.1]
  · rcases List.mem_append.1 hb with hb | hb
    · exact h1.2 b hb
    · exact h2.2 b hb

/-- Trace of a stage result. -/
def Step.trace {α : Type} : Step α → List TraceEv
  | .stop _ tr _ => tr
  | .go _ tr _ => tr

/-- Database state of a stage result. -/
def Step.db {α : Type} : Step α → Db
  | .stop d _ _ => d
  | .go d _ _ => d

theorem stepTextGeneration_quiet (env : HandlerEnv) (payload : PayloadImage) (db : Db) :
    quietTrace (stepTextGeneration env payload db).trace := by
  unfold stepTextGeneration
  repeat' split
  all_goals try dsimp only [Step.trace]
  all_goals try simp [quietTrace, isTerminalLedger]

theorem stepImageGeneration_quiet (env : HandlerEnv) (db : Db) :
    quietTrace (stepImageGeneration env db).trace := by
  unfold stepImageGeneration
  repeat' split
  all_goals dsimp only [Step.trace]
  all_goals simp [quietTrace, isTerminalLedger]

theorem stepPostProcess_quiet (env : HandlerEnv) (payload : PayloadImage) (db : Db) :
    quietTrace (stepPostProcess env payload db).trace := by
  unfold stepPostProcess
  repeat' split
  all_goals dsimp only [Step.trace]
  all_goals simp [quietTrace, isTerminalLedger]

theorem stepStoreImage_quiet (env : HandlerEnv) (image : GeneratedImage) (color : String)
    (db : Db) : quietTrace (stepStoreImage env image color db).trace := by
  unfold stepStoreImage
  repeat' split
  all_goals try dsimp only [Step.trace]
  all_goals try simp [quietTrace, isTerminalLedger]

theorem stepInsertRequest_quiet (env : HandlerEnv) (viewer : Viewer) (state : ReqState)
    (payload : PayloadImage) (prompt : String) (db : Db) :
    quietTrace (stepInsertRequest env viewer state payload prompt db).trace := by
  unfold stepInsertRequest
  repeat' split
  all_goals try dsimp only [Step.trace]
  all_goals simp [quietTrace, isTerminalLedger]

theorem stepFinish_ledger (env : HandlerEnv) (db5 : Db) :
    (∃ pre, (stepFinish env db5).trace
          = pre ++ [.publishEvent true, .ledgerAccept env.acceptOk]
        ∧ quietTrace pre ∧ (stepFinish env db5).accepted = env.acceptOk
        ∧ env.publishOk = true)
    ∨ (quietTrace (stepFinish env db5).trace ∧ (stepFinish env db5).accepted = false) := by
  unfold stepFinish
  by_cases hms : env.markSuccessCallFails
  · rw [if_pos hms]
    right
    exact ⟨by simp [quietTrace, isTerminalLedger], rfl⟩
  · rw [if_neg hms]
    by_cases hpub : env.publishOk
    · rw [if_neg (by simp [hpub])]
      by_cases hacc : env.acceptOk
      · rw [if_neg (by simp [hacc]), hacc]
        left
        exact ⟨[.dbMarkSuccess true (recordImageRequestSuccessQuery db5 env.freshId).2],
          rfl, by simp [quietTrace, isTerminalLedger], rfl, hpub⟩
      · rw [if_pos (by simp [hacc])]
        rw [Bool.not_eq_true] at hacc
        rw [hacc]
        left
        exact ⟨[.dbMarkSuccess true (recordImageRequestSuccessQuery db5 env.freshId).2],
          rfl, by simp [quietTrace, isTerminalLedger], rfl, hpub⟩
    · rw [if_pos (by simp [hpub])]
      right
      exact ⟨by simp [quietTrace, isTerminalLedger], rfl⟩

theorem handlerBody_ledger (env : HandlerEnv) (viewer : Viewer) (state : ReqState)
    (payload : PayloadImage) (complement : String → String) (db : Db) :
    (∃ pre, (handlerBody env viewer state payload complement db).trace
          = pre ++ [.publishEvent true, .ledgerAccept env.acceptOk]
        ∧ quietTrace pre
        ∧ (handlerBody env viewer state payload complement db).accepted = env.acceptOk
        ∧ env.publishOk = true)
    ∨ (quietTrace (handlerBody env viewer state payload complement db).trace
        ∧ (handlerBody env viewer state payload complement db).accepted = false) := by
  unfold handlerBody
  cases hfp : formatPrompt complement payload.style payload.inputs with
  | none =>
    right
    exact ⟨quietTrace_nil, rfl⟩
  | some prompt =>
    dsimp only
    rcases h0 : stepInsertRequest env viewer state payload prompt db with ⟨d1, trS, e⟩ | ⟨db1, trI, u⟩ <;>
      have hq0 := stepInsertRequest_quiet env viewer state payload prompt db <;>
      rw [h0] at hq0 <;> dsimp only [Step.trace] at hq0
    · right
      exact ⟨hq0, rfl⟩
    · dsimp only
      rcases h1 : stepTextGeneration env payload db1 with ⟨d2, tr, e⟩ | ⟨db2, tr1, v1⟩ <;>
        have hq1 := stepTextGeneration_quiet env payload db1 <;>
        rw [h1] at hq1 <;> dsimp only [Step.trace] at hq1
      · right
        exact ⟨quietTrace_append _ _ hq0 hq1, rfl⟩
      · dsimp only
        rcases h2 : stepImageGeneration env db2 with ⟨d3, tr, e⟩ | ⟨db3, tr2, v2⟩ <;>
          have hq2 := stepImageGeneration_quiet env db2 <;>
          rw [h2] at hq2 <;> dsimp only [Step.trace] at hq2
        · right
          exact ⟨quietTrace_append _ _ (quietTrace_append _ _ hq0 hq1) hq2, rfl⟩
        · dsimp only
          rcases h3 : stepPostProcess env payload db3 with ⟨d4, tr, e⟩ | ⟨db4, tr3, v3⟩ <;>
            have hq3 := stepPostProcess_quiet env payload db3 <;>
            rw [h3] at hq3 <;> dsimp only [Step.trace] at hq3
          · right
            refine ⟨?_, rfl⟩
            exact quietTrace_append _ _
              (quietTrace_append _ _ (quietTrace_append _ _ hq0 hq1) hq2) hq3
          · dsimp only
            rcases h4 : stepStoreImage env v3.1 v3.2 db4 with ⟨d5, tr, e⟩ | ⟨db5, tr4, v4⟩ <;>
              have hq4 := stepStoreImage_quiet env v3.1 v3.2 db4 <;>
              rw [h4] at hq4 <;> dsimp only [Step.trace] at hq4
            · right
              refine ⟨?_, rfl⟩
              exact quietTrace_append _ _ (quietTrace_append _ _
                (quietTrace_append _ _ (quietTrace_append _ _ hq0 hq1) hq2) hq3) hq4
            · have hqT : quietTrace (trI ++ tr1 ++ tr2 ++ tr3 ++ tr4) :=
                quietTrace_append _ _ (quietTrace_append _ _
                  (quietTrace_append _ _ (quietTrace_append _ _ hq0 hq1) hq2) hq3) hq4
              rcases stepFinish_ledger env db5 with ⟨pre, hpre, hqp, hac, hp⟩ | ⟨hqf, hac⟩
              · left
                refine ⟨trI ++ tr1 ++ tr2 ++ tr3 ++ tr4 ++ pre, ?_, ?_, hac, hp⟩
                · dsimp only
                  rw [hpre]
                  simp [List.append_assoc]
                · exact quietTrace_append _ _ hqT hqp
              · right
                exact ⟨quietTrace_append _ _ hqT hqf, hac⟩

/-- Claim C1: whenever the ledger reservation succeeds, exactly one terminal
ledger action is observed over the invocation; `Accept` is invoked only
immediately after a successful publish; and the trace ends with the deferred
finalize - a no-op exactly when `Accept` succeeded, a reject (refund) on
every other exit path. -/
theorem claim_C1_ledger_discipline (env : HandlerEnv) (viewer : Viewer) (state : ReqState)
    (payload : PayloadImage) (complement : String → String) (db : Db)
    (hauth : env.authOk = true) (hres : env.reserveOk = true) :
    ((handleImageRequest env viewer state payload complement db).trace.countP
        isTerminalLedger = 1)
    ∧ (∀ b, TraceEv.ledgerAccept b
          ∈ (handleImageRequest env viewer state payload complement db).trace →
        env.publishOk = true
        ∧ ∃ pre post, (handleImageRequest env viewer state payload complement db).trace
            = pre ++ [TraceEv.publishEvent true, TraceEv.ledgerAccept b] ++ post)
    ∧ ((TraceEv.ledgerAccept true
          ∈ (handleImageRequest env viewer state payload complement db).trace
        ∧ (handleImageRequest env viewer state payload complement db).trace.getLast?
          = some TraceEv.ledgerFinalizeNoop)
      ∨ (TraceEv.ledgerAccept true
          ∉ (handleImageRequest env viewer state payload complement db).trace
        ∧ (handleImageRequest env viewer state payload complement db).trace.getLast?
          = some TraceEv.ledgerFinalizeReject)) := by
  have hun : (handleImageRequest env viewer state payload complement db).trace
      = .authCall true :: .ledgerReserve true ::
        ((handlerBody env viewer state payload complement db).trace
          ++ [finalizeEvent (handlerBody env viewer state payload complement db).accepted]) := by
    simp [handleImageRequest, hauth, hres]
  rw [hun]
  rcases handlerBody_ledger env viewer state payload complement db with
    ⟨pre, hpre, hq, haccd, hpub⟩ | ⟨hq, haccd⟩
  · rw [hpre, haccd]
    refine ⟨?_, ?_, ?_⟩
    · cases hb : env.acceptOk <;>
        simp [List.countP_append, List.countP_cons, hq.1, isTerminalLedger, finalizeEvent, hb]
    · intro b hb
      have hnp := hq.2 b
      cases hbc : env.acceptOk <;> rw [hbc] at hb <;>
        simp [List.mem_cons, List.mem_append, finalizeEvent, hnp, hbc] at hb <;>
        subst hb <;>
        exact ⟨hpub, .authCall true :: .ledgerReserve true :: pre,
          [finalizeEvent env.acceptOk], by rw [hbc]; simp [finalizeEvent, List.append_assoc]⟩
    · cases hb : env.acceptOk
      · right
        constructor
        · simp [List.mem_cons, List.mem_append, finalizeEvent, hq.2 true]
        · rw [show TraceEv.authCall true :: TraceEv.ledgerReserve true ::
              ((pre ++ [TraceEv.publishEvent true, TraceEv.ledgerAccept false])
                ++ [finalizeEvent false])
              = (TraceEv.authCall true :: TraceEv.ledgerReserve true ::
                (pre ++ [TraceEv.publishEvent true, TraceEv.ledgerAccept false]))
                ++ [finalizeEvent false] by simp]
          rw [List.getLast?_concat]
          simp [finalizeEvent]
      · left
        constructor
        · simp [List.mem_cons, List.mem_append]
        · rw [show TraceEv.authCall true :: TraceEv.ledgerReserve true ::
              ((pre ++ [TraceEv.publishEvent true, TraceEv.ledgerAccept true])
                ++ [finalizeEvent true])
              = (TraceEv.authCall true :: TraceEv.ledgerReserve true ::
                (pre ++ [TraceEv.publishEvent true, TraceEv.ledgerAccept true]))
                ++ [finalizeEvent true] by simp]
          rw [List.getLast?_concat]
          simp [finalizeEvent]
  · rw [haccd]
    refine ⟨?_, ?_, ?_⟩
    · simp [List.countP_append, List.countP_cons, hq.1, isTerminalLedger, finalizeEvent]
    · intro b hb
      exfalso
      have hnp := hq.2 b
      simp [List.mem_cons, List.mem_append, finalizeEvent, hnp] at hb
    · right
      constructor
      · simp [List.mem_cons, List.mem_append, finalizeEvent, hq.2 true]
      · rw [show TraceEv.authCall true :: TraceEv.ledgerReserve true ::
            ((handlerBody env viewer state payload complement db).trace
              ++ [finalizeEvent false])
            = (TraceEv.authCall true :: TraceEv.ledgerReserve true ::
              (handlerBody env viewer state payload complement db).trace)
              ++ [finalizeEvent false] by simp]
        rw [List.getLast?_concat]
        simp [finalizeEvent]

/-- Witness for C1 at a fully-successful concrete invocation. -/
theorem claim_C1_ledger_discipline_witness :
    (handleImageRequest envAllOk ⟨"1005", "U"⟩ ⟨0, ""⟩ ⟨"ghost", ⟨⟨"s"⟩, ⟨"s", "red"⟩⟩⟩
      (fun c => c) Db.empty).trace.countP isTerminalLedger = 1 :=
  (claim_C1_ledger_discipline envAllOk ⟨"1005", "U"⟩ ⟨0, ""⟩ ⟨"ghost", ⟨⟨"s"⟩, ⟨"s", "red"⟩⟩⟩
    (fun c => c) Db.empty rfl rfl).1

/-! ## Images resolve to finished, error-free requests (claim C2) -/

/-- The claimed invariant: every image row's `image_request_id` resolves to
an existing request whose `error_message` is null and whose `finished_at` is
non-null. -/
def Db.imagesResolveClean (db : Db) : Prop :=
  ∀ img ∈ db.images, ∃ p ∈ db.requests,
    p.1 = img.imageRequestId ∧ p.2.errorMessage = none ∧ p.2.finishedAt ≠ none

theorem clean_markFailure (db : Db) (id msg : String) (h : db.imagesResolveClean) :
    (recordImageRequestFailureQuery db id msg).1.imagesResolveClean := by
  intro img hmem
  obtain ⟨p, hp, h1, h2, h3⟩ := h img hmem
  have hni : ¬rowInFlightWithId id p = true := by
    simp [rowInFlightWithId, h3]
  have hm := List.mem_map_of_mem
    (fun kr => if rowInFlightWithId id kr then (kr.1, setRowFailure msg db.clock kr.2) else kr) hp
  simp only [if_neg hni] at hm
  exact ⟨p, hm, h1, h2, h3⟩

theorem clean_markSuccess (db : Db) (id : String) (h : db.imagesResolveClean) :
    (recordImageRequestSuccessQuery db id).1.imagesResolveClean := by
  intro img hmem
  obtain ⟨p, hp, h1, h2, h3⟩ := h img hmem
  have hni : ¬rowInFlightWithId id p = true := by
    simp [rowInFlightWithId, h3]
  have hm := List.mem_map_of_mem
    (fun kr => if rowInFlightWithId id kr then (kr.1, setRowSuccess db.clock kr.2) else kr) hp
  simp only [if_neg hni] at hm
  exact ⟨p, hm, h1, h2, h3⟩

theorem clean_recordFailureStep (env : HandlerEnv) (db : Db) (msg : String)
    (h : db.imagesResolveClean) : (recordFailureStep env db msg).1.imagesResolveClean := by
  unfold recordFailureStep
  by_cases hmf : env.markFailureCallFails
  · rw [if_pos hmf]
    exact h
  · rw [if_neg hmf]
    exact clean_markFailure db env.freshId msg h

theorem clean_insertRequest_ok (db : Db) (id tu : String) (bi : Option Int)
    (si : Option String) (st inp pr : String) (db' : Db)
    (hok : recordImageRequestQuery db id tu bi si st inp pr = .ok db')
    (h : db.imagesResolveClean) : db'.imagesResolveClean := by
  unfold recordImageRequestQuery at hok
  split at hok
  · cases hok
  · cases hok
    intro img hmem
    obtain ⟨p, hp, h1, h2, h3⟩ := h img hmem
    exact ⟨p, List.mem_cons_of_mem _ hp, h1, h2, h3⟩

theorem stepInsertRequest_go_facts (env : HandlerEnv) (viewer : Viewer) (state : ReqState)
    (payload : PayloadImage) (prompt : String) (db db1 : Db) (tr : List TraceEv) (u : Unit)
    (hgo : stepInsertRequest env viewer state payload prompt db = .go db1 tr u) :
    db1.images = db.images
    ∧ ∃ r0, db1.requests = (env.freshId, r0) :: db.requests
        ∧ r0.errorMessage = none ∧ r0.finishedAt = none := by
  unfold stepInsertRequest at hgo
  split at hgo
  · cases hgo
  · rename_i db1' heq
    cases hgo
    split at heq
    · cases heq
    · unfold recordImageRequestQuery at heq
      split at heq
      · cases heq
      · cases heq
        exact ⟨rfl, _, rfl, rfl, rfl⟩

theorem stepTextGeneration_go_facts (env : HandlerEnv) (payload : PayloadImage)
    (db db2 : Db) (tr : List TraceEv) (v : String)
    (hgo : stepTextGeneration env payload db = .go db2 tr v) :
    db2.requests = db.requests ∧ db2.images = db.images := by
  unfold stepTextGeneration at hgo
  split at hgo
  · split at hgo
    · cases hgo
    · split at hgo
      · cases hgo
      · rename_i db1' heq
        cases hgo
        split at heq
        · cases heq
        · unfold recordAnswerQuery at heq
          split at heq
          · cases heq
          · cases heq
            exact ⟨rfl, rfl⟩
  · cases hgo
    exact ⟨rfl, rfl⟩

theorem stepImageGeneration_go_facts (env : HandlerEnv) (db db3 : Db)
    (tr : List TraceEv) (v : GeneratedImage)
    (hgo : stepImageGeneration env db = .go db3 tr v) : db3 = db := by
  unfold stepImageGeneration at hgo
  split at hgo
  · cases hgo
  · cases hgo
    rfl

theorem stepPostProcess_go_facts (env : HandlerEnv) (payload : PayloadImage)
    (db db4 : Db) (tr : List TraceEv) (v : GeneratedImage × String)
    (hgo : stepPostProcess env payload db = .go db4 tr v) : db4 = db := by
  unfold stepPostProcess at hgo
  split at hgo
  · split at hgo
    · cases hgo
    · split at hgo
      · cases hgo
      · split at hgo
        · cases hgo
        · cases hgo
          rfl
  · split at hgo
    · cases hgo
    · split at hgo
      · cases hgo
      · cases hgo
        rfl

theorem stepStoreImage_go_facts (env : HandlerEnv) (image : GeneratedImage) (color : String)
    (db db5 : Db) (tr : List TraceEv) (v : String)
    (hgo : stepStoreImage env image color db = .go db5 tr v) :
    db5.requests = db.requests
    ∧ ∀ img ∈ db5.images, img ∈ db.images ∨ img.imageRequestId = env.freshId := by
  unfold stepStoreImage at hgo
  split at hgo
  · cases hgo
  · split at hgo
    · cases hgo
    · rename_i db1' heq
      cases hgo
      split at heq
      · cases heq
      · unfold recordImageQuery at heq
        split at heq
        · cases heq
        · split at heq
          · cases heq
          · cases heq
            refine ⟨rfl, fun img hmem => ?_⟩
            rcases List.mem_append.1 hmem with hm | hm
            · exact Or.inl hm
            · rcases List.mem_singleton.1 hm with rfl
              exact Or.inr rfl

theorem stepFinish_clean (env : HandlerEnv) (db5 : Db)
    (hms : env.markSuccessCallFails = false)
    (hF1 : ∀ img ∈ db5.images, img.imageRequestId = env.freshId
      ∨ ∃ p ∈ db5.requests, p.1 = img.imageRequestId ∧ p.2.errorMessage = none
          ∧ p.2.finishedAt ≠ none)
    (hF2 : ∃ r0, (env.freshId, r0) ∈ db5.requests ∧ r0.errorMessage = none
        ∧ r0.finishedAt = none) :
    Db.imagesResolveClean (stepFinish env db5).db := by
  have hclean : Db.imagesResolveClean (recordImageRequestSuccessQuery db5 env.freshId).1 := by
    intro img hmem
    rcases hF1 img hmem with heq | ⟨p, hp, h1, h2, h3⟩
    · obtain ⟨r0, hr0, he, hf⟩ := hF2
      have hpos : rowInFlightWithId env.freshId (env.freshId, r0) = true := by
        simp [rowInFlightWithId, hf]
      have hm := List.mem_map_of_mem (fun kr => if rowInFlightWithId env.freshId kr
          then (kr.1, setRowSuccess db5.clock kr.2) else kr) hr0
      simp only [if_pos hpos] at hm
      exact ⟨(env.freshId, setRowSuccess db5.clock r0), hm, by simp [heq],
        by simp [setRowSuccess, he], by simp [setRowSuccess]⟩
    · have hni : ¬rowInFlightWithId env.freshId p = true := by
        simp [rowInFlightWithId, h3]
      have hm := List.mem_map_of_mem (fun kr => if rowInFlightWithId env.freshId kr
          then (kr.1, setRowSuccess db5.clock kr.2) else kr) hp
      simp only [if_neg hni] at hm
      exact ⟨p, hm, h1, h2, h3⟩
  unfold stepFinish
  rw [if_neg (by simp [hms])]
  by_cases hpub : env.publishOk
  · rw [if_neg (by simp [hpub])]
    by_cases hacc : env.acceptOk
    · rw [if_neg (by simp [hacc])]
      exact hclean
    · rw [if_pos (by simp [hacc])]
      exact hclean
  · rw [if_pos (by simp [hpub])]
    exact clean_recordFailureStep env _ _ hclean

theorem stepTextGeneration_clean (env : HandlerEnv) (payload : PayloadImage) (db : Db)
    (h : db.imagesResolveClean) :
    Db.imagesResolveClean (stepTextGeneration env payload db).db := by
  rcases hout : stepTextGeneration env payload db with ⟨d, tr, e⟩ | ⟨d, tr, v⟩ <;>
    dsimp only [Step.db] <;> unfold stepTextGeneration at hout
  · split at hout
    · split at hout
      · cases hout
        exact clean_recordFailureStep env db _ h
      · split at hout
        · cases hout
          exact clean_recordFailureStep env db _ h
        · cases hout
    · cases hout
  · split at hout
    · split at hout
      · cases hout
      · split at hout
        · cases hout
        · rename_i db1' heq
          cases hout
          split at heq
          · cases heq
          · unfold recordAnswerQuery at heq
            split at heq
            · cases heq
            · cases heq
              intro img hmem
              exact h img hmem
    · cases hout
      exact h

theorem stepImageGeneration_clean (env : HandlerEnv) (db : Db)
    (h : db.imagesResolveClean) :
    Db.imagesResolveClean (stepImageGeneration env db).db := by
  rcases hout : stepImageGeneration env db with ⟨d, tr, e⟩ | ⟨d, tr, v⟩ <;>
    dsimp only [Step.db] <;> unfold stepImageGeneration at hout
  · split at hout
    · cases hout
      exact clean_recordFailureStep env db _ h
    · cases hout
  · split at hout
    · cases hout
    · cases hout
      exact h

theorem stepPostProcess_clean (env : HandlerEnv) (payload : PayloadImage) (db : Db)
    (h : db.imagesResolveClean) :
    Db.imagesResolveClean (stepPostProcess env payload db).db := by
  rcases hout : stepPostProcess env payload db with ⟨d, tr, e⟩ | ⟨d, tr, v⟩ <;>
    dsimp only [Step.db] <;> unfold stepPostProcess at hout
  · split at hout
    · split at hout
      · cases hout
        exact clean_recordFailureStep env db _ h
      · split at hout
        · cases hout
          exact clean_recordFailureStep env db _ h
        · split at hout
          · cases hout
            exact clean_recordFailureStep env db _ h
          · cases hout
    · split at hout
      · cases hout
        exact clean_recordFailureStep env db _ h
      · split at hout
        · cases hout
          exact clean_recordFailureStep env db _ h
        · cases hout
  · split at hout
    · split at hout
      · cases hout
      · split at hout
        · cases hout
        · split at hout
          · cases hout
          · cases hout
            exact h
    · split at hout
      · cases hout
      · split at hout
        · cases hout
        · cases hout
          exact h

theorem stepStoreImage_stop_clean (env : HandlerEnv) (image : GeneratedImage) (color : String)
    (db d : Db) (tr : List TraceEv) (e : HandlerErr)
    (hout : stepStoreImage env image color db = .stop d tr e)
    (h : db.imagesResolveClean) : d.imagesResolveClean := by
  unfold stepStoreImage at hout
  split at hout
  · cases hout
    exact clean_recordFailureStep env db _ h
  · split at hout
    · cases hout
      exact clean_recordFailureStep env db _ h
    · cases hout

theorem stepInsertRequest_stop_db (env : HandlerEnv) (viewer : Viewer) (state : ReqState)
    (payload : PayloadImage) (prompt : String) (db d : Db) (tr : List TraceEv) (e : HandlerErr)
    (hstop : stepInsertRequest env viewer state payload prompt db = .stop d tr e) : d = db := by
  unfold stepInsertRequest at hstop
  split at hstop
  · cases hstop
    rfl
  · cases hstop

theorem handlerBody_clean (env : HandlerEnv) (viewer : Viewer) (state : ReqState)
    (payload : PayloadImage) (complement : String → String) (db : Db)
    (hms : env.markSuccessCallFails = false) (h : db.imagesResolveClean) :
    Db.imagesResolveClean (handlerBody env viewer state payload complement db).db := by
  unfold handlerBody
  cases hfp : formatPrompt complement payload.style payload.inputs with
  | none => exact h
  | some prompt =>
    dsimp only
    rcases h0 : stepInsertRequest env viewer state payload prompt db with ⟨d1, trS, e⟩ | ⟨db1, trI, u⟩
    · have hd1 := stepInsertRequest_stop_db env viewer state payload prompt db d1 trS e h0
      rw [hd1]
      exact h
    · obtain ⟨hIimg, r0, hreq, hre, hrf⟩ :=
        stepInsertRequest_go_facts env viewer state payload prompt db db1 trI u h0
      have h1 : db1.imagesResolveClean := by
        intro img hmem
        rw [hIimg] at hmem
        obtain ⟨p, hp, ha, hb, hc⟩ := h img hmem
        refine ⟨p, ?_, ha, hb, hc⟩
        rw [hreq]
        exact List.mem_cons_of_mem _ hp
      dsimp only
      rcases h1s : stepTextGeneration env payload db1 with ⟨d2, tr, e⟩ | ⟨db2, tr1, v1⟩
      · have hcl := stepTextGeneration_clean env payload db1 h1
        rw [h1s] at hcl
        exact hcl
      · obtain ⟨hTreq, hTimg⟩ := stepTextGeneration_go_facts env payload db1 db2 tr1 v1 h1s
        have h2 : db2.imagesResolveClean := by
          intro img hmem
          rw [hTimg] at hmem
          obtain ⟨p, hp, ha, hb, hc⟩ := h1 img hmem
          refine ⟨p, ?_, ha, hb, hc⟩
          rw [hTreq]
          exact hp
        dsimp only
        rcases h2s : stepImageGeneration env db2 with ⟨d3, tr, e⟩ | ⟨db3, tr2, v2⟩
        · have hcl := stepImageGeneration_clean env db2 h2
          rw [h2s] at hcl
          exact hcl
        · have hD3 := stepImageGeneration_go_facts env db2 db3 tr2 v2 h2s
          dsimp only
          rcases h3s : stepPostProcess env payload db3 with ⟨d4, tr, e⟩ | ⟨db4, tr3, v3⟩
          · have hcl := stepPostProcess_clean env payload db3 (hD3 ▸ h2)
            rw [h3s] at hcl
            exact hcl
          · have hD4 := stepPostProcess_go_facts env payload db3 db4 tr3 v3 h3s
            have hreq4 : db4.requests = db1.requests := by rw [hD4, hD3, hTreq]
            have himg4 : db4.images = db1.images := by rw [hD4, hD3, hTimg]
            dsimp only
            rcases h4s : stepStoreImage env v3.1 v3.2 db4 with ⟨d5, tr, e⟩ | ⟨db5, tr4, v4⟩
            · have h4 : db4.imagesResolveClean := by
                rw [hD4, hD3]
                exact h2
              exact stepStoreImage_stop_clean env v3.1 v3.2 db4 d5 tr e h4s h4
            · obtain ⟨hreq5, himg5⟩ :=
                stepStoreImage_go_facts env v3.1 v3.2 db4 db5 tr4 v4 h4s
              refine stepFinish_clean env db5 hms ?_ ?_
              · intro img hmem
                rcases himg5 img hmem with hm | hm
                · right
                  rw [himg4, hIimg] at hm
                  obtain ⟨p, hp, ha, hb, hc⟩ := h img hm
                  refine ⟨p, ?_, ha, hb, hc⟩
                  rw [hreq5, hreq4, hreq]
                  exact List.mem_cons_of_mem _ hp
                · exact Or.inl hm
              · refine ⟨r0, ?_, hre, hrf⟩
                rw [hreq5, hreq4, hreq]
                exact List.mem_cons_self _ _

theorem handleImageRequest_clean (env : HandlerEnv) (viewer : Viewer) (state : ReqState)
    (payload : PayloadImage) (complement : String → String) (db : Db)
    (hms : env.markSuccessCallFails = false) (h : db.imagesResolveClean) :
    Db.imagesResolveClean (handleImageRequest env viewer state payload complement db).db := by
  unfold handleImageRequest
  by_cases ha : env.authOk
  · rw [if_neg (by simp [ha])]
    by_cases hr : env.reserveOk
    · rw [if_neg (by simp [hr])]
      exact handlerBody_clean env viewer state payload complement db hms h
    · rw [if_pos (by simp [hr])]
      exact h
  · rw [if_pos (by simp [ha])]
    exact h

/-- One inbound message's configuration: the outcome environment and the
parsed envelope fields handed to `handleImageRequest`. -/
structure RunCfg where
  env : HandlerEnv
  viewer : Viewer
  state : ReqState
  payload : PayloadImage

/-- Run a sequence of handler executions against the shared database. -/
def runHandlers (complement : String → String) (runs : List RunCfg) (db : Db) : Db :=
  match runs with
  | [] => db
  | c :: rest =>
    runHandlers complement rest (handleImageRequest c.env c.viewer c.state c.payload complement db).db

instance (db : Db) : Decidable (Db.imagesResolveClean db) := by
  unfold Db.imagesResolveClean
  infer_instance

/-- Like `envAllOk` but the `RecordImageRequestSuccess` database call fails
after the image row has been stored. -/
def envBadMark : HandlerEnv := { envAllOk with markSuccessCallFails := true }

/-- Claim C2 (counterexample): a reachable state violating the claim.  One
handler execution in which every step succeeds except the
`RecordImageRequestSuccess` call leaves an Image row whose request is still
in flight (`finished_at` null), so the claimed invariant fails. -/
theorem claim_C2_images_resolve_counterexample :
    (runHandlers (fun c => c)
        [⟨envBadMark, ⟨"1005", "U"⟩, ⟨0, ""⟩, ⟨"ghost", ⟨⟨"s"⟩, ⟨"s", "red"⟩⟩⟩⟩]
        Db.empty).images ≠ []
    ∧ ¬ Db.imagesResolveClean
        (runHandlers (fun c => c)
          [⟨envBadMark, ⟨"1005", "U"⟩, ⟨0, ""⟩, ⟨"ghost", ⟨⟨"s"⟩, ⟨"s", "red"⟩⟩⟩⟩]
          Db.empty) :=
  ⟨by decide, by decide⟩

/-- Claim C2 (amended): in every state reachable by handler executions in
which the `RecordImageRequestSuccess` database call does not fail, every
Image row resolves to an ImageRequest with `finished_at` non-null and
`error_message` null.  (When that call can fail, the request that owns a
freshly stored image may remain in flight - `finished_at` null - though its
`error_message` is still null.) -/
theorem claim_C2_images_resolve_amended (complement : String → String)
    (runs : List RunCfg) (db : Db)
    (hms : ∀ c ∈ runs, c.env.markSuccessCallFails = false)
    (hdb : Db.imagesResolveClean db) :
    Db.imagesResolveClean (runHandlers complement runs db) := by
  have main : ∀ (rs : List RunCfg), (∀ c ∈ rs, c.env.markSuccessCallFails = false) →
      ∀ d, Db.imagesResolveClean d → Db.imagesResolveClean (runHandlers complement rs d) := by
    intro rs
    induction rs with
    | nil =>
      intro _ d hd
      exact hd
    | cons c rest ih =>
      intro hall d hd
      exact ih (fun c' hc' => hall c' (List.mem_cons_of_mem _ hc')) _
        (handleImageRequest_clean c.env c.viewer c.state c.payload complement d
          (hall c (List.mem_cons_self _ _)) hd)
  exact main runs hms db hdb

/-- Witness for the amended C2 at a concrete fully-successful run. -/
theorem claim_C2_images_resolve_amended_witness :
    Db.imagesResolveClean
      (runHandlers (fun c => c)
        [⟨envAllOk, ⟨"1005", "U"⟩, ⟨0, ""⟩, ⟨"ghost", ⟨⟨"s"⟩, ⟨"s", "red"⟩⟩⟩⟩] Db.empty) :=
  claim_C2_images_resolve_amended (fun c => c)
    [⟨envAllOk, ⟨"1005", "U"⟩, ⟨0, ""⟩, ⟨"ghost", ⟨⟨"s"⟩, ⟨"s", "red"⟩⟩⟩⟩] Db.empty
    (by decide) (by decide)

end Dynamo
